import Mathlib

/-!
Verification of the LVGL fingerprint firmware (`src/main.cpp`).

The firmware is shallowly embedded: the fingerprint sensor is an oracle
given as a list of response codes consumed one per sensor call, the LVGL
widget/mode state is an explicit record, and each C++ function becomes a
pure Lean function on that record.  Enrollment additionally produces the
trace of events a single invocation performs (sensor calls with their
responses, `lv_timer_handler` pumps, label updates), so that counting
sensor calls per tick, ordering of store after merge, and the effect of a
cancel processed at a pump point are all statable.
-/

namespace FPFirmware

/-! ### Sensor response codes (Adafruit_Fingerprint constants) -/

def FINGERPRINT_OK : Nat := 0x00
def FINGERPRINT_PACKETRECIEVEERR : Nat := 0x01
def FINGERPRINT_NOFINGER : Nat := 0x02
def FINGERPRINT_IMAGEFAIL : Nat := 0x03
def FINGERPRINT_IMAGEMESS : Nat := 0x06
def FINGERPRINT_FEATUREFAIL : Nat := 0x07
def FINGERPRINT_NOMATCH : Nat := 0x08
def FINGERPRINT_NOTFOUND : Nat := 0x09

/-! ### Events performed by one enrollment tick -/

/-- A sensor-transport operation invoked by the firmware. -/
inductive SensorOp where
  | getImage : SensorOp
  | image2Tz (slot : Nat) : SensorOp
  | createModel : SensorOp
  | storeModel (id : Nat) : SensorOp
  | fingerSearch : SensorOp
deriving DecidableEq, Repr

/-- One observable event inside a tick: a sensor call together with the
response code the sensor returned, an `lv_timer_handler` pump (the only
points where queued touch input is processed), or a `fingerLabel` update. -/
inductive Ev where
  | call (op : SensorOp) (resp : Nat) : Ev
  | pump : Ev
  | label (s : String) : Ev
deriving DecidableEq, Repr

def isCall : Ev → Bool
  | .call _ _ => true
  | _ => false

/-- Number of sensor calls in a trace. -/
def countCalls (tr : List Ev) : Nat := (tr.filter isCall).length

/-- The suffix of a trace strictly after its `k`-th pump event (the events
that still happen if a queued cancel is processed at that pump). -/
def afterPump : Nat → List Ev → List Ev
  | _, [] => []
  | 0, tr => tr
  | k + 1, .pump :: tr => afterPump k tr
  | k + 1, .call _ _ :: tr => afterPump (k + 1) tr
  | k + 1, .label _ :: tr => afterPump (k + 1) tr

/-! ### UI / global state

Mirrors the globals of `main.cpp`: the `fingerLabel` text, the scan
button's child label text, the global `uint8_t id`, the two mode flags and
the `LV_OBJ_FLAG_HIDDEN` flag of each widget that the handlers touch. -/

structure UIState where
  fingerLabel : String
  scanBtnLabel : String
  id : Nat
  enrollingMode : Bool
  scanningMode : Bool
  enrollHidden : Bool
  scanHidden : Bool
  returnHidden : Bool
  taHidden : Bool
  kbHidden : Bool
deriving DecidableEq, Repr

/-- State after `setup()`: menu shown, everything else hidden, both modes off. -/
def initState : UIState :=
  { fingerLabel := "Select Enroll or Scan."
    scanBtnLabel := "Scan"
    id := 0
    enrollingMode := false
    scanningMode := false
    enrollHidden := false
    scanHidden := false
    returnHidden := true
    taHidden := true
    kbHidden := true }

/-! ### C `atoi` followed by the `uint8_t` conversion of `id = atoi(input)` -/

def isCSpace (c : Char) : Bool :=
  c = ' ' ∨ c = '\t' ∨ c = '\n' ∨ c = '\r' ∨ c = '\x0b' ∨ c = '\x0c'

def skipSpaces : List Char → List Char
  | [] => []
  | c :: cs => if isCSpace c then skipSpaces cs else c :: cs

def digitsToNat (cs : List Char) : Nat :=
  cs.foldl (fun a c => a * 10 + (c.toNat - 48)) 0

def leadingDigits (cs : List Char) : List Char :=
  cs.takeWhile Char.isDigit

/-- C `atoi`: optional whitespace, optional sign, longest digit run; `0`
when no digits are found. -/
def atoi (s : String) : Int :=
  match skipSpaces s.data with
  | '-' :: cs => -(digitsToNat (leadingDigits cs) : Int)
  | '+' :: cs => (digitsToNat (leadingDigits cs) : Int)
  | cs => (digitsToNat (leadingDigits cs) : Int)

/-- The assignment `uint8_t id = atoi(input)`: conversion to `unsigned char` is reduction
modulo `2^8`. -/
def atoiU8 (s : String) : Nat := ((atoi s) % 256).toNat

/-! ### The widget event handlers of `main.cpp` -/

/-- Embeds `return_button_event_handler` (the `LV_EVENT_CLICKED` branch). -/
def return_button_event_handler (ui : UIState) : UIState :=
  { ui with
    enrollHidden := false
    scanHidden := false
    returnHidden := true
    fingerLabel := "Select Enroll or Scan."
    enrollingMode := false
    scanningMode := false }

/-- Embeds `scan_button_event_handler` (the `LV_EVENT_CLICKED` branch). -/
def scan_button_event_handler (ui : UIState) : UIState :=
  if ui.scanningMode = false then
    { ui with
      scanningMode := true
      fingerLabel := "Scanning..."
      scanBtnLabel := "Return"
      enrollHidden := true }
  else
    { ui with
      scanningMode := false
      fingerLabel := "Returning to main menu..."
      scanBtnLabel := "Scan"
      enrollHidden := false }

/-- Embeds `enroll_button_event_handler` (the `LV_EVENT_CLICKED` branch). -/
def enroll_button_event_handler (ui : UIState) : UIState :=
  { ui with
    fingerLabel := "Enrolling, please enter the ID:"
    enrollHidden := true
    scanHidden := true
    taHidden := false
    kbHidden := false }

/-- Embeds `keyboard_event_handler` (the `LV_EVENT_READY` branch): parse the text
area content with `atoi`, truncate to `uint8_t`, validate `1..127`. -/
def keyboard_event_handler (ui : UIState) (input : String) : UIState :=
  let v := atoiU8 input
  let ui1 := { ui with id := v }
  if 0 < v ∧ v ≤ 127 then
    { ui1 with
      fingerLabel := "Enrolling ID #" ++ Nat.repr v
      kbHidden := true
      taHidden := true
      returnHidden := false
      enrollingMode := true }
  else
    { ui1 with fingerLabel := "Invalid ID, please try again." }

/-- Embeds `return_to_main_menu`. -/
def return_to_main_menu (ui : UIState) : UIState :=
  { ui with
    enrollHidden := false
    scanHidden := false
    returnHidden := true
    fingerLabel := "Select Enroll or Scan."
    enrollingMode := false
    scanningMode := false }

/-! ### Enrollment (`handleFingerprintEnrollment`)

The sensor is an oracle `env : List Nat` of response codes consumed one per
sensor call.  The two blocking `while (finger.getImage() != …)` loops
consume oracle entries until the stop code appears; `none` models a run in
which the supplied oracle is exhausted while a loop is still spinning. -/

/-- One `while (finger.getImage() != stop)`-style loop: issue `getImage`
repeatedly until the response satisfies `stop`, returning the events
performed and the remaining oracle. -/
def drainUntil (stop : Nat → Bool) : List Nat → Option (List Ev × List Nat)
  | [] => none
  | r :: rest =>
    if stop r then some ([Ev.call .getImage r], rest)
    else
      match drainUntil stop rest with
      | none => none
      | some (evs, rem) => some (Ev.call .getImage r :: evs, rem)

/-- Embeds `handleFingerprintEnrollment`: one invocation (one tick of `loop()`)
on UI state `ui` with sensor oracle `env`.  Returns the updated globals
and the trace of events the invocation performed, or `none` if `env` is
too short to decide where the invocation ends (a wait loop still spinning
when the oracle runs out). -/
def handleFingerprintEnrollment (ui : UIState) (env : List Nat) :
    Option (UIState × List Ev) :=
  if ui.enrollingMode = false ∨ ui.id = 0 then some (ui, [])
  else
    let l1 := "Place finger to enroll as ID #" ++ Nat.repr ui.id
    match env with
    | [] => none
    | p :: env1 =>
      let e0 : List Ev := [.label l1, .pump, .call .getImage p]
      if p = FINGERPRINT_NOFINGER then
        some ({ ui with fingerLabel := l1 }, e0)
      else if p = FINGERPRINT_OK then
        let e1 := e0 ++ [.label "Image taken, processing...", .pump]
        match env1 with
        | [] => none
        | q :: env2 =>
          let e2 := e1 ++ [.call (.image2Tz 1) q]
          if q = FINGERPRINT_OK then
            let e3 := e2 ++ [.label "Remove finger and place it again.", .pump]
            match drainUntil (fun r => r = FINGERPRINT_NOFINGER) env2 with
            | none => none
            | some (evR, env3) =>
              let e4 := e3 ++ evR ++ [.label "Place the same finger again.", .pump]
              match drainUntil (fun r => r = FINGERPRINT_OK) env3 with
              | none => none
              | some (evP, env4) =>
                let e5 := e4 ++ evP
                match env4 with
                | [] => none
                | t :: env5 =>
                  let e6 := e5 ++ [.call (.image2Tz 2) t]
                  if t = FINGERPRINT_OK then
                    match env5 with
                    | [] => none
                    | m :: env6 =>
                      let e7 := e6 ++ [.call .createModel m]
                      if m = FINGERPRINT_OK then
                        match env6 with
                        | [] => none
                        | st :: _ =>
                          let e8 := e7 ++ [.call (.storeModel ui.id) st]
                          if st = FINGERPRINT_OK then
                            let l9 := "Fingerprint enrolled successfully as ID #"
                                        ++ Nat.repr ui.id
                            some (return_to_main_menu { ui with fingerLabel := l9 },
                              e8 ++ [.label l9, .pump, .label "Select Enroll or Scan."])
                          else
                            some ({ ui with fingerLabel := "Failed to store fingerprint." },
                              e8 ++ [.label "Failed to store fingerprint.", .pump])
                      else
                        some ({ ui with fingerLabel := "Fingerprints did not match." },
                          e7 ++ [.label "Fingerprints did not match.", .pump])
                  else
                    some ({ ui with fingerLabel := "Failed to capture second image." },
                      e6 ++ [.label "Failed to capture second image.", .pump])
          else
            some ({ ui with fingerLabel := "Failed to process image." },
              e2 ++ [.label "Failed to process image.", .pump])
      else
        some ({ ui with fingerLabel := "Error capturing image." },
          e0 ++ [.label "Error capturing image.", .pump])

/-! ### Scanning (`getFingerprintID` / `scanFingerprint`)

`fid` is the sensor's `finger.fingerID` register after a successful search
and `conf` its `finger.confidence`; `conf` is threaded through because the
hardware provides it, and the code never reads it. -/

/-- Embeds `getFingerprintID`: capture, convert, search.  Returns the `uint8_t`
the function returns plus the remaining oracle. -/
def getFingerprintID (env : List Nat) (fid : Nat) (conf : Nat) :
    Option (Nat × List Nat) :=
  match env with
  | [] => none
  | p :: env1 =>
    if p = FINGERPRINT_NOFINGER then some (FINGERPRINT_NOFINGER, env1)
    else if p ≠ FINGERPRINT_OK then some (p, env1)
    else
      match env1 with
      | [] => none
      | q :: env2 =>
        if q ≠ FINGERPRINT_OK then some (q, env2)
        else
          match env2 with
          | [] => none
          | r :: env3 =>
            if r ≠ FINGERPRINT_OK then some (r, env3)
            else some (fid, env3)

/-- Embeds `scanFingerprint`: render the result of `getFingerprintID` on the
label.  The `default` branch's `fingerprintID >= 0` guard is kept as in
the source (vacuous on an unsigned value). -/
def scanFingerprint (ui : UIState) (env : List Nat) (fid : Nat) (conf : Nat) :
    Option UIState :=
  match getFingerprintID env fid conf with
  | none => none
  | some (fingerprintID, _) =>
    if fingerprintID = FINGERPRINT_NOFINGER then
      some { ui with fingerLabel := "No Finger Detected" }
    else if fingerprintID = FINGERPRINT_NOTFOUND then
      some { ui with fingerLabel := "No Match Found" }
    else if 0 ≤ fingerprintID then
      some { ui with fingerLabel := "Fingerprint ID: " ++ Nat.repr fingerprintID }
    else
      some ui

/-! ### The event-driven system

Clicks reach a widget only when it is not hidden (`LV_OBJ_FLAG_HIDDEN`
objects receive no input); ticks are the two mode-gated calls in `loop()`. -/

inductive UIEvent where
  | scanClick : UIEvent
  | enrollClick : UIEvent
  | keyboardReady (input : String) : UIEvent
  | returnClick : UIEvent
  | enrollTick (env : List Nat) : UIEvent
  | scanTick (env : List Nat) (fid : Nat) (conf : Nat) : UIEvent

/-- One step of the system: a user gesture on a visible widget, or one
iteration of `loop()`'s mode-gated work. -/
def uiStep (ui : UIState) : UIEvent → UIState
  | .scanClick => if ui.scanHidden then ui else scan_button_event_handler ui
  | .enrollClick => if ui.enrollHidden then ui else enroll_button_event_handler ui
  | .keyboardReady s => if ui.kbHidden then ui else keyboard_event_handler ui s
  | .returnClick => if ui.returnHidden then ui else return_button_event_handler ui
  | .enrollTick env =>
    if ui.enrollingMode then
      match handleFingerprintEnrollment ui env with
      | some (ui', _) => ui'
      | none => ui
    else ui
  | .scanTick env fid conf =>
    if ui.scanningMode then
      match scanFingerprint ui env fid conf with
      | some ui' => ui'
      | none => ui
    else ui

/-- State reached from `setup()` by a sequence of events. -/
def uiReach (evs : List UIEvent) : UIState := evs.foldl uiStep initState

/-- ID-entry state: the user pressed Enroll from the main menu. -/
def entryUI : UIState := uiStep initState .enrollClick

/-- Enrolling state for ID 12: valid ID confirmed on the keyboard. -/
def enrollUI12 : UIState := uiStep entryUI (.keyboardReady "12")

/-! ### Derived predicates used by the claims -/

/-- Fold step for `storeAfterMerge`: the pair carries (property holds so
far, a `createModel` call has returned `FINGERPRINT_OK`). -/
def samStep : (Bool × Bool) → Ev → (Bool × Bool)
  | (ok, seen), .call .createModel r => (ok, seen || decide (r = FINGERPRINT_OK))
  | (ok, seen), .call (.storeModel _) _ => (ok && seen, seen)
  | acc, _ => acc

/-- Every `storeModel` call in the trace is preceded by a `createModel`
call that returned `FINGERPRINT_OK`. -/
def storeAfterMerge (tr : List Ev) : Bool :=
  (tr.foldl samStep (true, false)).1

/-- The mode-exclusivity property of §3 of the spec: the two modes never
hold together, and each active mode keeps the other mode's controls
hidden. -/
def ModesExclusive (ui : UIState) : Bool :=
  (!(ui.enrollingMode && ui.scanningMode))
    && (!ui.scanningMode || ui.enrollHidden)
    && (!ui.enrollingMode || (ui.scanHidden && ui.enrollHidden))

/-- Inductive invariant of the event system, strong enough to carry
mode exclusivity through every step. -/
def Inv (ui : UIState) : Prop :=
  (ui.enrollingMode = false ∨ ui.scanningMode = false)
  ∧ (ui.scanningMode = true → ui.enrollHidden = true ∧ ui.kbHidden = true ∧ ui.returnHidden = true)
  ∧ (ui.enrollingMode = true → ui.scanHidden = true ∧ ui.enrollHidden = true ∧ ui.kbHidden = true)
  ∧ (ui.scanHidden = false → ui.kbHidden = true ∧ ui.returnHidden = true)
  ∧ (ui.returnHidden = false → ui.kbHidden = true)
  ∧ (ui.enrollHidden = false → ui.returnHidden = true)
  ∧ (ui.kbHidden = false →
      ui.enrollHidden = true ∧ ui.scanHidden = true
        ∧ ui.enrollingMode = false ∧ ui.scanningMode = false)

/-- One scanning tick whose capture answers `NoFinger`, as iterated by
`loop()` while the finger stays absent. -/
def noFingerScanTick (fid conf : Nat) (ui : UIState) : UIState :=
  (scanFingerprint ui [FINGERPRINT_NOFINGER] fid conf).getD ui

/-- The successful ID-12 enrollment run of the spec's scenario. -/
def succRun : UIState × List Ev :=
  (handleFingerprintEnrollment enrollUI12 [0, 0, 2, 0, 0, 0, 0]).getD (initState, [])

/-! ## Helper lemmas -/

theorem entryUI_eq :
    entryUI =
      { fingerLabel := "Enrolling, please enter the ID:"
        scanBtnLabel := "Scan", id := 0
        enrollingMode := false, scanningMode := false
        enrollHidden := true, scanHidden := true
        returnHidden := true, taHidden := false, kbHidden := false } := by
  decide

theorem enrollUI12_eq :
    enrollUI12 =
      { fingerLabel := "Enrolling ID #12"
        scanBtnLabel := "Scan", id := 12
        enrollingMode := true, scanningMode := false
        enrollHidden := true, scanHidden := true
        returnHidden := false, taHidden := true, kbHidden := true } := by
  decide

theorem countCalls_append (a b : List Ev) :
    countCalls (a ++ b) = countCalls a + countCalls b := by
  simp [countCalls, List.filter_append]

theorem countCalls_replicate_getImage (n : Nat) (r : Nat) :
    countCalls (List.replicate n (Ev.call .getImage r)) = n := by
  induction n with
  | zero => rfl
  | succ k ih => simpa [List.replicate_succ, countCalls, isCall, List.filter] using ih

theorem drain_replicate_noFinger (n : Nat) (rest : List Nat) :
    drainUntil (fun r => r = 2) (List.replicate n 0 ++ 2 :: rest) =
      some (List.replicate n (Ev.call .getImage 0) ++ [Ev.call .getImage 2], rest) := by
  induction n with
  | zero => simp [drainUntil]
  | succ k ih =>
    simp only [List.replicate_succ, List.cons_append, drainUntil] at ih ⊢
    norm_num
    rw [ih]

theorem handle_enroll_shape (ui : UIState) (env : List Nat) (ui' : UIState) (tr : List Ev)
    (h : handleFingerprintEnrollment ui env = some (ui', tr)) :
    ui' = ui ∨ (∃ msg, ui' = { ui with fingerLabel := msg }) ∨
      (∃ msg, ui' = return_to_main_menu { ui with fingerLabel := msg }) := by
  unfold handleFingerprintEnrollment at h
  split at h
  · injection h with h1
    exact Or.inl (congrArg Prod.fst h1).symm
  · split at h
    · exact absurd h (by simp)
    · split at h
      · injection h with h1
        exact Or.inr (Or.inl ⟨_, (congrArg Prod.fst h1).symm⟩)
      · split at h
        · split at h
          · exact absurd h (by simp)
          · split at h
            · split at h
              · exact absurd h (by simp)
              · split at h
                · exact absurd h (by simp)
                · split at h
                  · exact absurd h (by simp)
                  · split at h
                    · split at h
                      · exact absurd h (by simp)
                      · split at h
                        · split at h
                          · exact absurd h (by simp)
                          · split at h
                            · injection h with h1
                              exact Or.inr (Or.inr ⟨_, (congrArg Prod.fst h1).symm⟩)
                            · injection h with h1
                              exact Or.inr (Or.inl ⟨_, (congrArg Prod.fst h1).symm⟩)
                        · injection h with h1
                          exact Or.inr (Or.inl ⟨_, (congrArg Prod.fst h1).symm⟩)
                    · injection h with h1
                      exact Or.inr (Or.inl ⟨_, (congrArg Prod.fst h1).symm⟩)
            · injection h with h1
              exact Or.inr (Or.inl ⟨_, (congrArg Prod.fst h1).symm⟩)
        · injection h with h1
          exact Or.inr (Or.inl ⟨_, (congrArg Prod.fst h1).symm⟩)

theorem scan_shape (ui : UIState) (env : List Nat) (fid conf : Nat) (ui' : UIState)
    (h : scanFingerprint ui env fid conf = some ui') :
    ui' = ui ∨ ∃ msg, ui' = { ui with fingerLabel := msg } := by
  unfold scanFingerprint at h
  split at h
  · exact absurd h (by simp)
  · split at h
    · exact Or.inr ⟨_, (Option.some_injective _ h).symm⟩
    · split at h
      · exact Or.inr ⟨_, (Option.some_injective _ h).symm⟩
      · split at h
        · exact Or.inr ⟨_, (Option.some_injective _ h).symm⟩
        · exact Or.inl (Option.some_injective _ h).symm

theorem inv_init : Inv initState := by
  simp [Inv, initState]

theorem inv_step (ui : UIState) (ev : UIEvent) (h : Inv ui) : Inv (uiStep ui ev) := by
  cases ev with
  | scanClick =>
    revert h
    rcases ui with ⟨fl, sbl, i, em, sm, eh, sh, rh, th, kh⟩
    cases em <;> cases sm <;> cases eh <;> cases sh <;> cases rh <;> cases th <;> cases kh <;>
      simp [uiStep, scan_button_event_handler, Inv]
  | enrollClick =>
    revert h
    rcases ui with ⟨fl, sbl, i, em, sm, eh, sh, rh, th, kh⟩
    cases em <;> cases sm <;> cases eh <;> cases sh <;> cases rh <;> cases th <;> cases kh <;>
      simp [uiStep, enroll_button_event_handler, Inv]
  | returnClick =>
    revert h
    rcases ui with ⟨fl, sbl, i, em, sm, eh, sh, rh, th, kh⟩
    cases em <;> cases sm <;> cases eh <;> cases sh <;> cases rh <;> cases th <;> cases kh <;>
      simp [uiStep, return_button_event_handler, Inv]
  | keyboardReady s =>
    revert h
    rcases ui with ⟨fl, sbl, i, em, sm, eh, sh, rh, th, kh⟩
    by_cases hv : 0 < atoiU8 s ∧ atoiU8 s ≤ 127 <;>
      cases em <;> cases sm <;> cases eh <;> cases sh <;> cases rh <;> cases th <;> cases kh <;>
        simp [uiStep, keyboard_event_handler, Inv, hv]
  | enrollTick env =>
    by_cases hm : ui.enrollingMode = true
    · simp only [uiStep, hm, if_true]
      rcases hh : handleFingerprintEnrollment ui env with _ | ⟨ui', tr⟩
      · exact h
      · rcases handle_enroll_shape ui env ui' tr hh with rfl | ⟨msg, rfl⟩ | ⟨msg, rfl⟩
        · exact h
        · revert h
          rcases ui with ⟨fl, sbl, i, em, sm, eh, sh, rh, th, kh⟩
          simp [Inv]
        · revert h hm
          rcases ui with ⟨fl, sbl, i, em, sm, eh, sh, rh, th, kh⟩
          cases em <;> cases sm <;> cases eh <;> cases sh <;> cases rh <;> cases th <;> cases kh <;>
            simp [Inv, return_to_main_menu]
    · simpa [uiStep, hm] using h
  | scanTick env fid conf =>
    by_cases hm : ui.scanningMode = true
    · simp only [uiStep, hm, if_true]
      rcases hh : scanFingerprint ui env fid conf with _ | ui'
      · exact h
      · rcases scan_shape ui env fid conf ui' hh with rfl | ⟨msg, rfl⟩
        · exact h
        · revert h
          rcases ui with ⟨fl, sbl, i, em, sm, eh, sh, rh, th, kh⟩
          simp [Inv]
    · simpa [uiStep, hm] using h

theorem inv_foldl (evs : List UIEvent) (ui : UIState) (h : Inv ui) :
    Inv (evs.foldl uiStep ui) := by
  induction evs generalizing ui with
  | nil => exact h
  | cons ev rest ih => exact ih _ (inv_step ui ev h)

theorem inv_reach (evs : List UIEvent) : Inv (uiReach evs) :=
  inv_foldl evs initState inv_init

theorem modes_of_inv (ui : UIState) (h : Inv ui) : ModesExclusive ui = true := by
  revert h
  rcases ui with ⟨fl, sbl, i, em, sm, eh, sh, rh, th, kh⟩
  cases em <;> cases sm <;> cases eh <;> cases sh <;>
    simp [Inv, ModesExclusive]

/-! ## Claims -/

/-- C5: in every state reachable from `setup()` by any sequence of UI
events (scan toggle, enroll request, ID confirmation, return click,
enrollment and scan ticks), at most one of {enrollment active, scanning
active} holds, and the active mode keeps the other mode's controls
hidden. -/
theorem C5_mode_exclusive (evs : List UIEvent) :
    ModesExclusive (uiReach evs) = true :=
  modes_of_inv (uiReach evs) (inv_reach evs)

/-- C9: enrolling ID 12 with sensor responses capture1=Ok, convert1=Ok,
one NoFinger during the removal debounce, capture2=Ok, convert2=Ok,
merge=Ok, store=Ok completes the session successfully (the handler
reaches the success branch and performs its return-to-menu), and the UI
text set at that point is "Fingerprint enrolled successfully as ID #12",
which ends with "enrolled successfully as ID #12". -/
theorem C9_enroll12_success :
    (handleFingerprintEnrollment enrollUI12 [0, 0, 2, 0, 0, 0, 0]).map Prod.fst =
        some (return_to_main_menu
          { enrollUI12 with fingerLabel := "Fingerprint enrolled successfully as ID #12" })
      ∧ (handleFingerprintEnrollment enrollUI12 [0, 0, 2, 0, 0, 0, 0]).map
          (fun r => decide (Ev.label "Fingerprint enrolled successfully as ID #12" ∈ r.2)) =
        some true
      ∧ "Fingerprint " ++ "enrolled successfully as ID #12" =
        "Fingerprint enrolled successfully as ID #12" := by
  refine ⟨by decide, by decide, rfl⟩

/-- C10: `getFingerprintID` funnels status codes and matched template IDs
through the same `uint8_t`: a fully successful match against a stored
template with ID 2 (= the NoFinger code) is rendered as "No Finger
Detected", one with ID 9 (= the NotFound code) as "No Match Found", and
the scan path is independent of the sensor's confidence value. -/
theorem C10_codomain_confusion :
    getFingerprintID [0, 0, 0] 2 77 = some (FINGERPRINT_NOFINGER, [])
      ∧ scanFingerprint initState [0, 0, 0] 2 77 =
        some { initState with fingerLabel := "No Finger Detected" }
      ∧ scanFingerprint initState [0, 0, 0] 9 77 =
        some { initState with fingerLabel := "No Match Found" }
      ∧ ∀ (ui : UIState) (env : List Nat) (fid c c' : Nat),
          scanFingerprint ui env fid c = scanFingerprint ui env fid c' := by
  exact ⟨by decide, by decide, by decide, fun ui env fid c c' => rfl⟩

/-- C1 counterexample: with enrollment active for ID 12 and the sensor
answering Ok, Ok, NoFinger, Ok, Ok, Ok, Ok, a single poll tick (one
invocation of `handleFingerprintEnrollment`) performs 7 sensor calls, not
at most one. -/
theorem C1_counterexample :
    (handleFingerprintEnrollment enrollUI12 [0, 0, 2, 0, 0, 0, 0]).map
        (fun r => countCalls r.2) = some 7
      ∧ ¬(7 ≤ 1) := by
  exact ⟨by decide, by decide⟩

/-- C1 (amended): one enrollment tick runs the whole capture protocol,
and the finger-removal wait inside it issues one further `getImage` call
per tick of finger presence, so the number of sensor calls a single poll
tick performs is unbounded: with `n` still-present responses during the
removal debounce the tick performs `n + 7` sensor calls before
returning. -/
theorem C1_enrollment_tick_blocking (n : Nat) :
    (handleFingerprintEnrollment enrollUI12
        (0 :: 0 :: (List.replicate n 0 ++ [2, 0, 0, 0, 0]))).map
      (fun r => countCalls r.2) = some (n + 7) := by
  rw [enrollUI12_eq]
  simp only [handleFingerprintEnrollment]
  norm_num [FINGERPRINT_NOFINGER, FINGERPRINT_OK]
  rw [drain_replicate_noFinger n [0, 0, 0, 0]]
  simp only [drainUntil]
  norm_num
  refine ⟨_, _, ⟨rfl, rfl⟩, ?_⟩
  have hrep := countCalls_replicate_getImage n 0
  simp [countCalls, List.filter_append, List.filter, isCall] at hrep ⊢

/-- C2 counterexample: after a first-capture conversion failure the
session shows "Failed to process image." but `enrollingMode` stays set,
so the very next poll tick — with no return-to-menu reset in between —
runs a new enrollment step (it issues a sensor call). -/
theorem C2_counterexample :
    (handleFingerprintEnrollment enrollUI12 [0, 3]).map
        (fun r => (r.1.fingerLabel, r.1.enrollingMode)) =
      some ("Failed to process image.", true)
      ∧ (handleFingerprintEnrollment enrollUI12 [0, 3]).bind
          (fun r => (handleFingerprintEnrollment r.1 [2]).map (fun r2 => countCalls r2.2)) =
        some 1 := by
  exact ⟨by decide, by decide⟩

/-- C2 (amended): failure is not terminal — after any conversion failure
the mode flag and the target ID survive, so the next tick automatically
retries the capture protocol with the same ID (restart happens at the
capture phase, not at ID entry); a successful run resets to the menu by
itself, and an explicit return click makes subsequent enrollment ticks
no-ops. -/
theorem C2_failure_not_terminal :
    (∀ rest : List Nat,
        (handleFingerprintEnrollment enrollUI12 (0 :: 3 :: rest)).map
          (fun r => (r.1.enrollingMode, r.1.id)) = some (true, 12))
      ∧ (∀ (ui : UIState) (env : List Nat),
          handleFingerprintEnrollment (return_button_event_handler ui) env =
            some (return_button_event_handler ui, []))
      ∧ (handleFingerprintEnrollment enrollUI12 [0, 0, 2, 0, 0, 0, 0]).map
          (fun r => r.1.enrollingMode) = some false := by
  refine ⟨fun rest => ?_, fun ui env => rfl, by decide⟩
  rw [enrollUI12_eq]
  rfl

/-- C3 counterexample: a hard capture failure (PacketError = 1) during
the wait for the second finger placement is silently retried rather than
failing the session: the run still reaches `storeModel` and ends in the
success/return-to-menu state, so the second capture phase does not apply
the first phase's failure handling. -/
theorem C3_counterexample :
    (handleFingerprintEnrollment enrollUI12 [0, 0, 2, 1, 0, 0, 0, 0]).map
        (fun r => (r.1.fingerLabel,
          decide (Ev.call .getImage FINGERPRINT_PACKETRECIEVEERR ∈ r.2),
          decide (Ev.call (.storeModel 12) 0 ∈ r.2))) =
      some ("Select Enroll or Scan.", true, true) := by
  decide

/-- C3 (amended): every failure variant of `convertToTemplate` goes
directly to the failure state in both capture phases, but the phases do
not mirror each other on capture results: the second-placement wait
retries every non-Ok capture response (hard failure variants included)
instead of failing. -/
theorem C3_convert_failures :
    (∀ q : Nat, q ≠ 0 →
        (handleFingerprintEnrollment enrollUI12 [0, q]).map
          (fun r => (r.1.fingerLabel, r.1.enrollingMode)) =
        some ("Failed to process image.", true))
      ∧ (∀ t : Nat, t ≠ 0 →
          (handleFingerprintEnrollment enrollUI12 [0, 0, 2, 0, t]).map
            (fun r => (r.1.fingerLabel, r.1.enrollingMode)) =
          some ("Failed to capture second image.", true))
      ∧ (∀ c : Nat, c ≠ 0 →
          (handleFingerprintEnrollment enrollUI12 [0, 0, 2, c, 0, 0, 0, 0]).map
            (fun r => r.1.fingerLabel) =
          some "Select Enroll or Scan.") := by
  refine ⟨fun q hq => ?_, fun t ht => ?_, fun c hc => ?_⟩
  · rw [enrollUI12_eq]
    simp only [handleFingerprintEnrollment]
    norm_num [FINGERPRINT_NOFINGER, FINGERPRINT_OK, hq]
  · rw [enrollUI12_eq]
    simp only [handleFingerprintEnrollment]
    norm_num [FINGERPRINT_NOFINGER, FINGERPRINT_OK, drainUntil, ht]
  · rw [enrollUI12_eq]
    simp only [handleFingerprintEnrollment]
    norm_num [FINGERPRINT_NOFINGER, FINGERPRINT_OK, drainUntil, hc, return_to_main_menu]

/-- Witness for C3_convert_failures at q = 3, t = 3, c = 1. -/
theorem C3_witness :
    (handleFingerprintEnrollment enrollUI12 [0, 3]).map
        (fun r => (r.1.fingerLabel, r.1.enrollingMode)) =
      some ("Failed to process image.", true)
      ∧ (handleFingerprintEnrollment enrollUI12 [0, 0, 2, 0, 3]).map
          (fun r => (r.1.fingerLabel, r.1.enrollingMode)) =
        some ("Failed to capture second image.", true)
      ∧ (handleFingerprintEnrollment enrollUI12 [0, 0, 2, 1, 0, 0, 0, 0]).map
          (fun r => r.1.fingerLabel) =
        some "Select Enroll or Scan." :=
  ⟨C3_convert_failures.1 3 (by decide), C3_convert_failures.2.1 3 (by decide),
    C3_convert_failures.2.2 1 (by decide)⟩

/-- C4 counterexample: the input string "257" parses (via `atoi`) to 257,
which is greater than 127, yet the `uint8_t` assignment truncates it to
1, the validation accepts it, enrollment leaves the ID-entry phase and
the next tick runs a capture step. -/
theorem C4_counterexample :
    atoi "257" = 257 ∧ (127 : Int) < 257
      ∧ (uiStep entryUI (.keyboardReady "257")).enrollingMode = true
      ∧ (uiStep entryUI (.keyboardReady "257")).id = 1
      ∧ (handleFingerprintEnrollment (uiStep entryUI (.keyboardReady "257")) [2]).map
          (fun r => countCalls r.2) = some 1 := by
  exact ⟨by decide, by decide, by decide, by decide, by decide⟩

/-- C4 (amended): validation happens after the `uint8_t` truncation:
enrollment leaves the ID-entry phase iff `atoi(input) mod 256` lies in
[1,127].  When the truncated value is 0 or above 127 the handler keeps
`enrollingMode` unset and the keyboard visible, and a subsequent
enrollment tick performs no sensor call; when it lies in [1,127] the
capture protocol starts with that truncated ID. -/
theorem C4_id_validation (s : String) (ui : UIState) (h : ui.enrollingMode = false) :
    ((atoiU8 s = 0 ∨ 127 < atoiU8 s) →
        (keyboard_event_handler ui s).enrollingMode = false
        ∧ (keyboard_event_handler ui s).kbHidden = ui.kbHidden
        ∧ ∀ env, handleFingerprintEnrollment (keyboard_event_handler ui s) env =
            some (keyboard_event_handler ui s, []))
      ∧ ((0 < atoiU8 s ∧ atoiU8 s ≤ 127) →
          (keyboard_event_handler ui s).enrollingMode = true
          ∧ (keyboard_event_handler ui s).id = atoiU8 s) := by
  constructor
  · intro hv
    have hcond : ¬(0 < atoiU8 s ∧ atoiU8 s ≤ 127) := by omega
    refine ⟨by simp [keyboard_event_handler, hcond, h], by simp [keyboard_event_handler, hcond], ?_⟩
    intro env
    have hmode : (keyboard_event_handler ui s).enrollingMode = false := by
      simp [keyboard_event_handler, hcond, h]
    unfold handleFingerprintEnrollment
    simp [hmode]
  · intro hv
    exact ⟨by simp [keyboard_event_handler, hv], by simp [keyboard_event_handler, hv]⟩

/-- Witness for C4_id_validation with the rejected input "abc" and the
accepted input "12", both from the ID-entry state. -/
theorem C4_witness :
    (keyboard_event_handler entryUI "abc").enrollingMode = false
      ∧ handleFingerprintEnrollment (keyboard_event_handler entryUI "abc") [2] =
        some (keyboard_event_handler entryUI "abc", [])
      ∧ (keyboard_event_handler entryUI "12").enrollingMode = true :=
  ⟨((C4_id_validation "abc" entryUI (by decide)).1 (by decide)).1,
    ((C4_id_validation "abc" entryUI (by decide)).1 (by decide)).2.2 [2],
    ((C4_id_validation "12" entryUI (by decide)).2 (by decide)).1⟩

theorem noFingerScanTick_eq (fid conf : Nat) (u : UIState) :
    noFingerScanTick fid conf u = { u with fingerLabel := "No Finger Detected" } := rfl

/-- C6: each scanning tick resolves to exactly one outcome label and
changes no mode flag; any number of consecutive NoFinger ticks leaves the
modes untouched and only ever shows the no-finger message (never a match
or a no-match); and from any reachable state, scanning mode is ended only
by the explicit scan-button toggle or return click, never by a tick. -/
theorem C6_scan_loop_behavior :
    (∀ (ui : UIState) (env : List Nat) (fid conf : Nat) (ui' : UIState),
        scanFingerprint ui env fid conf = some ui' →
          ui'.scanningMode = ui.scanningMode ∧ ui'.enrollingMode = ui.enrollingMode
            ∧ (ui'.fingerLabel = "No Finger Detected"
                ∨ ui'.fingerLabel = "No Match Found"
                ∨ ∃ k, ui'.fingerLabel = "Fingerprint ID: " ++ Nat.repr k))
      ∧ (∀ (n : Nat) (ui : UIState) (fid conf : Nat),
          ((noFingerScanTick fid conf)^[n] ui).scanningMode = ui.scanningMode
            ∧ ((noFingerScanTick fid conf)^[n] ui).enrollingMode = ui.enrollingMode
            ∧ (0 < n →
                ((noFingerScanTick fid conf)^[n] ui).fingerLabel = "No Finger Detected"))
      ∧ (∀ (evs : List UIEvent) (ev : UIEvent),
          (uiReach evs).scanningMode = true →
          (uiStep (uiReach evs) ev).scanningMode = false →
          ev = .scanClick ∨ ev = .returnClick) := by
  refine ⟨fun ui env fid conf ui' h => ?_, fun n ui fid conf => ?_, fun evs ev hs hchg => ?_⟩
  · unfold scanFingerprint at h
    split at h
    · exact absurd h (by simp)
    · split at h
      · injection h with h1
        subst h1
        exact ⟨rfl, rfl, Or.inl rfl⟩
      · split at h
        · injection h with h1
          subst h1
          exact ⟨rfl, rfl, Or.inr (Or.inl rfl)⟩
        · split at h
          · injection h with h1
            subst h1
            exact ⟨rfl, rfl, Or.inr (Or.inr ⟨_, rfl⟩)⟩
          · injection h with h1
            subst h1
            exact ⟨rfl, rfl, by omega⟩
  · induction n with
    | zero => exact ⟨rfl, rfl, by omega⟩
    | succ k ih =>
      rw [Function.iterate_succ_apply', noFingerScanTick_eq]
      exact ⟨ih.1, ih.2.1, fun _ => rfl⟩
  · have hinv := inv_reach evs
    obtain ⟨h1, h2, _, _, _, _, _⟩ := hinv
    obtain ⟨heh, hkh, hrh⟩ := h2 hs
    have hem : (uiReach evs).enrollingMode = false := by
      rcases h1 with h1 | h1
      · exact h1
      · rw [h1] at hs; exact absurd hs (by simp)
    cases ev with
    | scanClick => exact Or.inl rfl
    | returnClick => exact Or.inr rfl
    | enrollClick =>
      rw [show uiStep (uiReach evs) .enrollClick = uiReach evs by
        simp [uiStep, heh]] at hchg
      rw [hs] at hchg
      exact absurd hchg (by simp)
    | keyboardReady s =>
      rw [show uiStep (uiReach evs) (.keyboardReady s) = uiReach evs by
        simp [uiStep, hkh]] at hchg
      rw [hs] at hchg
      exact absurd hchg (by simp)
    | enrollTick env =>
      rw [show uiStep (uiReach evs) (.enrollTick env) = uiReach evs by
        simp [uiStep, hem]] at hchg
      rw [hs] at hchg
      exact absurd hchg (by simp)
    | scanTick env fid conf =>
      have : (uiStep (uiReach evs) (.scanTick env fid conf)).scanningMode = true := by
        simp only [uiStep, hs, if_true]
        rcases hh : scanFingerprint (uiReach evs) env fid conf with _ | ui'
        · exact hs
        · rcases scan_shape _ env fid conf ui' hh with rfl | ⟨msg, rfl⟩
          · exact hs
          · exact hs
      rw [this] at hchg
      exact absurd hchg (by simp)

/-- Witness for C6_scan_loop_behavior: a NoFinger tick from the initial
state, three NoFinger iterations, and ending scanning via the toggle. -/
theorem C6_witness :
    (({ initState with fingerLabel := "No Finger Detected" } : UIState).scanningMode =
          initState.scanningMode
        ∧ ({ initState with fingerLabel := "No Finger Detected" } : UIState).enrollingMode =
          initState.enrollingMode
        ∧ (({ initState with fingerLabel := "No Finger Detected" } : UIState).fingerLabel =
              "No Finger Detected"
            ∨ ({ initState with fingerLabel := "No Finger Detected" } : UIState).fingerLabel =
              "No Match Found"
            ∨ ∃ k, ({ initState with fingerLabel := "No Finger Detected" } : UIState).fingerLabel =
              "Fingerprint ID: " ++ Nat.repr k))
      ∧ ((noFingerScanTick 5 60)^[3] initState).fingerLabel = "No Finger Detected"
      ∧ (UIEvent.scanClick = UIEvent.scanClick ∨ UIEvent.scanClick = UIEvent.returnClick) :=
  ⟨C6_scan_loop_behavior.1 initState [2] 5 60
      { initState with fingerLabel := "No Finger Detected" } (by decide),
    (C6_scan_loop_behavior.2.1 3 initState 5 60).2.2 (by decide),
    C6_scan_loop_behavior.2.2 [.scanClick] .scanClick (by decide) (by decide)⟩

/-- C7 counterexample: an explicit cancel does not abort the tick in
progress.  In the successful ID-12 run, even if the user's return click
is processed at the second `lv_timer_handler` pump (right after the first
capture), the same tick still issues 6 further sensor calls, whose
responses drive the session to completion. -/
theorem C7_counterexample :
    (handleFingerprintEnrollment enrollUI12 [0, 0, 2, 0, 0, 0, 0]).map
        (fun r => countCalls (afterPump 2 r.2)) = some 6
      ∧ 0 < 6 := by
  exact ⟨by decide, by decide⟩

/-- C7 (amended): the return click clears `enrollingMode`, so no
enrollment sensor call is issued in any subsequent tick; but a tick
already in progress runs the whole remaining protocol — after a cancel
processed at the second pump of a successful run, 6 further sensor calls
still occur within that tick. -/
theorem C7_cancel_between_ticks :
    (∀ (ui : UIState) (env : List Nat),
        handleFingerprintEnrollment (return_button_event_handler ui) env =
          some (return_button_event_handler ui, []))
      ∧ (∀ (ui : UIState) (env : List Nat),
          uiStep (return_button_event_handler ui) (.enrollTick env) =
            return_button_event_handler ui)
      ∧ (handleFingerprintEnrollment enrollUI12 [0, 0, 2, 0, 0, 0, 0]).map
          (fun r => countCalls (afterPump 2 r.2)) = some 6 := by
  exact ⟨fun ui env => rfl, fun ui env => rfl, by decide⟩

theorem drainUntil_getImage (stop : Nat → Bool) (env : List Nat) (evs : List Ev)
    (rem : List Nat) (h : drainUntil stop env = some (evs, rem)) :
    ∀ e ∈ evs, ∃ r, e = Ev.call .getImage r := by
  induction env generalizing evs rem with
  | nil => exact absurd h (by simp [drainUntil])
  | cons a tl ih =>
    unfold drainUntil at h
    split at h
    · injection h with h1
      injection h1 with h1a h1b
      subst h1a
      intro e he
      simp only [List.mem_singleton] at he
      exact ⟨a, he⟩
    · split at h
      · exact absurd h (by simp)
      · rename_i evs' rem' heq
        injection h with h1
        injection h1 with h1a h1b
        subst h1a
        intro e he
        rcases List.mem_cons.mp he with rfl | he'
        · exact ⟨a, rfl⟩
        · exact ih evs' rem' heq e he'

theorem foldl_samStep_getImage (evs : List Ev)
    (hg : ∀ e ∈ evs, ∃ r, e = Ev.call .getImage r) (p : Bool × Bool) :
    evs.foldl samStep p = p := by
  induction evs generalizing p with
  | nil => rfl
  | cons e tl ih =>
    obtain ⟨r, rfl⟩ := hg e (List.mem_cons_self e tl)
    rcases p with ⟨ok, seen⟩
    rw [List.foldl_cons, show samStep (ok, seen) (Ev.call .getImage r) = (ok, seen) from rfl]
    exact ih (fun e he => hg e (List.mem_cons_of_mem _ he)) (ok, seen)

/-- C8: in every completed invocation of the enrollment handler, any
`storeModel` call in the trace comes after a `createModel` (merge) call
that returned Ok — no partial template is ever stored. -/
theorem C8_store_after_merge (ui : UIState) (env : List Nat) (res : UIState × List Ev)
    (h : handleFingerprintEnrollment ui env = some res) :
    storeAfterMerge res.2 = true := by
  unfold handleFingerprintEnrollment at h
  split at h
  · injection h with h1
    rw [← h1]
    rfl
  · split at h
    · exact absurd h (by simp)
    · split at h
      · injection h with h1
        rw [← h1]
        rfl
      · split at h
        · split at h
          · exact absurd h (by simp)
          · split at h
            · split at h
              · exact absurd h (by simp)
              · rename_i evR env3 hR
                have hRg := drainUntil_getImage _ _ _ _ hR
                split at h
                · exact absurd h (by simp)
                · rename_i evP env4 hP
                  have hPg := drainUntil_getImage _ _ _ _ hP
                  split at h
                  · exact absurd h (by simp)
                  · split at h
                    · split at h
                      · exact absurd h (by simp)
                      · split at h
                        · rename_i hm
                          split at h
                          · exact absurd h (by simp)
                          · split at h
                            · injection h with h1
                              rw [← h1]
                              simp only [storeAfterMerge, List.foldl_cons, List.foldl_append]
                              rw [foldl_samStep_getImage _ hRg, foldl_samStep_getImage _ hPg]
                              simp [samStep, hm, FINGERPRINT_OK]
                            · injection h with h1
                              rw [← h1]
                              simp only [storeAfterMerge, List.foldl_cons, List.foldl_append]
                              rw [foldl_samStep_getImage _ hRg, foldl_samStep_getImage _ hPg]
                              simp [samStep, hm, FINGERPRINT_OK]
                        · injection h with h1
                          rw [← h1]
                          simp only [storeAfterMerge, List.foldl_cons, List.foldl_append]
                          rw [foldl_samStep_getImage _ hRg, foldl_samStep_getImage _ hPg]
                          simp [samStep]
                    · injection h with h1
                      rw [← h1]
                      simp only [storeAfterMerge, List.foldl_cons, List.foldl_append]
                      rw [foldl_samStep_getImage _ hRg, foldl_samStep_getImage _ hPg]
                      simp [samStep]
            · injection h with h1
              rw [← h1]
              rfl
        · injection h with h1
          rw [← h1]
          rfl

/-- Witness for C8_store_after_merge on the successful ID-12 run. -/
theorem C8_witness : storeAfterMerge succRun.2 = true :=
  C8_store_after_merge enrollUI12 [0, 0, 2, 0, 0, 0, 0] succRun (by decide)

end FPFirmware
